import Mathlib

/-!
Verification of `sapphire/simulations/navier_stokes.py`.

The Python file builds symbolic UFL expressions (weak-form residuals for the
steady incompressible Navier-Stokes equations), constructs a Taylor-Hood mixed
element in `Simulation.__init__`, registers a pressure nullspace, and subtracts
the "mean" pressure after solving.  We embed the expression-building code as a
small expression AST mirroring the UFL operators the file uses, and model the
stateful constructor and post-processing step with explicit state passing.
-/

namespace NavierStokes

/-- Symbolic scalar/vector/tensor expression, mirroring the UFL operators that
`navier_stokes.py` uses: `fe.Constant` / float literals, field references,
`grad`, `div`, `sym`, `inner`, `dot`, the Python `*`, `/`, `+`, `-` operators. -/
inductive Expr where
  | const (x : ℚ)
  | var (name : String)
  | grad (e : Expr)
  | div (e : Expr)
  | sym (e : Expr)
  | inner (a b : Expr)
  | dot (a b : Expr)
  | mul (a b : Expr)
  | fdiv (a b : Expr)
  | add (a b : Expr)
  | sub (a b : Expr)
  deriving DecidableEq, Repr

/-- Symbolic variational form: `e*self.dx` is `integral e`, and the Python `+`
on two forms concatenates their integrals. -/
inductive Form where
  | integral (e : Expr)
  | add (a b : Form)
  deriving DecidableEq, Repr

/-- The pair of named fields `"p"` and `"u"` that `self.solution_fields[...]`
and `self.test_functions[...]` look up. -/
structure FieldMap where
  p : Expr
  u : Expr
  deriving DecidableEq, Repr

/-- Opaque handle to a function (sub)space object of the external framework. -/
structure Space where
  id : ℕ
  deriving DecidableEq, Repr

/-- The pair of named subspaces `self.solution_subspaces["p"]` / `["u"]`. -/
structure SubspaceMap where
  p : Space
  u : Space
  deriving DecidableEq, Repr

/-- State of a `Simulation` object as seen by the residual and nullspace
methods: `self.reynolds_number` (a `fe.Constant`, kept symbolic),
`self.solution_fields`, `self.test_functions`, `self.solution_space` and
`self.solution_subspaces` (the last three supplied by the base class). -/
structure Simulation where
  reynolds_number : Expr
  solution_fields : FieldMap
  test_functions : FieldMap
  solution_space : Space
  solution_subspaces : SubspaceMap
  deriving DecidableEq, Repr

/-- Embedding of `Simulation.mass`:
`return psi_p*div(u)*self.dx`. -/
def Simulation.mass (self : Simulation) : Form :=
  let u := self.solution_fields.u
  let psi_p := self.test_functions.p
  .integral (.mul psi_p (.div u))

/-- Embedding of `Simulation.momentum`:
`return (dot(psi_u, grad(u)*u) - div(psi_u)*p +
  2./Re*inner(sym(grad(psi_u)), sym(grad(u))))*self.dx`.
Python parses the integrand as
`(dot(psi_u, grad(u)*u) - div(psi_u)*p) + (2./Re)*inner(...)`. -/
def Simulation.momentum (self : Simulation) : Form :=
  let p := self.solution_fields.p
  let u := self.solution_fields.u
  let Re := self.reynolds_number
  let psi_u := self.test_functions.u
  .integral (.add
    (.sub (.dot psi_u (.mul (.grad u) u)) (.mul (.div psi_u) p))
    (.mul (.fdiv (.const 2) Re) (.inner (.sym (.grad psi_u)) (.sym (.grad u)))))

/-- Embedding of `Simulation.weak_form_residual`:
`return self.mass() + self.momentum()`. -/
def Simulation.weak_form_residual (self : Simulation) : Form :=
  .add self.mass self.momentum

/-- Basis object passed to the solver for one component of the mixed space:
either `fe.VectorSpaceBasis(constant=True)` (span of the constant function) or
a whole subspace (`self.solution_subspaces["u"]`, meaning unconstrained). -/
inductive VectorSpaceBasis where
  | constants
  | subspace (s : Space)
  deriving DecidableEq, Repr

/-- Embedding of `fe.MixedVectorSpaceBasis(space, (b_p, b_u))`. -/
structure MixedVectorSpaceBasis where
  space : Space
  bases : VectorSpaceBasis × VectorSpaceBasis
  deriving DecidableEq, Repr

/-- Embedding of `Simulation.nullspace`:
`return fe.MixedVectorSpaceBasis(self.solution_space,
  (fe.VectorSpaceBasis(constant=True), self.solution_subspaces["u"]))`. -/
def Simulation.nullspace (self : Simulation) : MixedVectorSpaceBasis :=
  { space := self.solution_space
    bases := (.constants, .subspace self.solution_subspaces.u) }

/-- Embedding of the module-level `strong_residual(sim, solution)`:
`p, u = solution; r_p = div(u);
 r_u = grad(u)*u + grad(p) - 2./Re*div(sym(grad(u))); return r_p, r_u`. -/
def strong_residual (sim : Simulation) (solution : Expr × Expr) : Expr × Expr :=
  let p := solution.1
  let u := solution.2
  let Re := sim.reynolds_number
  let r_p := Expr.div u
  let r_u := Expr.sub (.add (.mul (.grad u) u) (.grad p))
    (.mul (.fdiv (.const 2) Re) (.div (.sym (.grad u))))
  (r_p, r_u)

/-- Spec-side reading of the momentum integrand, written from the spec's words:
`ψ_u·(grad(u)·u) − div(ψ_u)·p + (2/Re)·inner(sym(grad(ψ_u)), sym(grad(u)))`. -/
def momentumIntegrandSpec (p u psi_u Re : Expr) : Expr :=
  .add (.sub (.dot psi_u (.mul (.grad u) u)) (.mul (.div psi_u) p))
    (.mul (.fdiv (.const 2) Re) (.inner (.sym (.grad psi_u)) (.sym (.grad u))))

/-- Spec-side reading of the strong residual, written from the spec's words:
`r_p = div(u)`, `r_u = grad(u)·u + grad(p) − (2/Re)·div(sym(grad(u)))`. -/
def strongResidualSpec (p u Re : Expr) : Expr × Expr :=
  (.div u,
   .sub (.add (.mul (.grad u) u) (.grad p))
     (.mul (.fdiv (.const 2) Re) (.div (.sym (.grad u)))))

/-- Reference cell of a mesh, returned by `mesh.ufl_cell()`. -/
structure Cell where
  name : String
  deriving DecidableEq, Repr

/-- Opaque mesh object; only its identity and its `ufl_cell()` matter here. -/
structure Mesh where
  id : ℕ
  cell : Cell
  deriving DecidableEq, Repr

/-- Embedding of `mesh.ufl_cell()`. -/
def Mesh.ufl_cell (m : Mesh) : Cell := m.cell

/-- Finite element objects built by `__init__`: `fe.FiniteElement("P", cell, d)`
(scalar Lagrange), `fe.VectorElement("P", cell, d)` (vector Lagrange), and
`fe.MixedElement(a, b)`. -/
inductive Element where
  | FiniteElement (family : String) (cell : Cell) (degree : ℕ)
  | VectorElement (family : String) (cell : Cell) (degree : ℕ)
  | MixedElement (a b : Element)
  deriving DecidableEq, Repr

/-- Embedding of `fe.FunctionSpace(mesh, element)`. -/
structure FunctionSpace where
  mesh : Mesh
  element : Element
  deriving DecidableEq, Repr

/-- Embedding of `fe.Function(space)`: a fresh function on a function space. -/
structure Function where
  function_space : FunctionSpace
  deriving DecidableEq, Repr

/-- The keyword arguments `__init__` reads or writes: `kwargs["solution"]` and
`kwargs["mesh"]`; a missing key is `none`. -/
structure Kwargs where
  solution : Option Function
  mesh : Option Mesh
  deriving DecidableEq, Repr

/-- Python exception raised by a failed kwargs lookup. -/
inductive PyError where
  | keyError (key : String)
  deriving DecidableEq, Repr

/-- What `__init__` hands over: the `fe.Constant` stored in
`self.reynolds_number`, the keyword arguments passed to
`super().__init__(*args, **kwargs)`, and the mixed element it constructed
(`none` when the branch that builds one was not taken). -/
structure InitResult where
  reynolds_number : Expr
  super_kwargs : Kwargs
  constructed_element : Option Element
  deriving DecidableEq, Repr

/-- Default value of the keyword parameter
`taylor_hood_pressure_element_degree = 1` in the `__init__` signature. -/
def taylor_hood_pressure_element_degree_default : ℕ := 1

/-- Embedding of `Simulation.__init__(self, *args, reynolds_number,
taylor_hood_pressure_element_degree = 1, **kwargs)`.  If `"solution"` is not
in `kwargs`, it reads `kwargs["mesh"]` (a `KeyError` when absent aborts before
`super().__init__` runs, modelled by `Except.error`), deletes `"mesh"`, builds
the mixed Taylor-Hood element and a fresh `fe.Function` on it, and stores that
as `kwargs["solution"]`; then it sets `self.reynolds_number =
fe.Constant(reynolds_number)` and calls `super().__init__(**kwargs)`.  The
unused `*args` are passed through unchanged and omitted from the model. -/
def Simulation.init (reynolds_number : ℚ) (kwargs : Kwargs)
    (taylor_hood_pressure_element_degree : ℕ) : Except PyError InitResult :=
  match kwargs.solution with
  | none =>
    match kwargs.mesh with
    | none => .error (.keyError "mesh")
    | some mesh =>
      let d := taylor_hood_pressure_element_degree
      let element := Element.MixedElement
        (.FiniteElement "P" mesh.ufl_cell d)
        (.VectorElement "P" mesh.ufl_cell (d + 1))
      .ok { reynolds_number := .const reynolds_number
            super_kwargs :=
              { solution := some ⟨⟨mesh, element⟩⟩, mesh := none }
            constructed_element := some element }
  | some _ =>
    .ok { reynolds_number := .const reynolds_number
          super_kwargs := kwargs
          constructed_element := none }

/-- Discrete semantic state for `Simulation.solve` after `super().solve()` has
returned: the domain is a finite family of quadrature points with weights
`dxWeights` (the measure `self.dx`), and the post-processing solution fields
`p` and `u` hold the solver output values at those points.

Modelled from the spec: the base class `sapphire.simulation.Simulation` (its
`solve`, `self.dx` and `post_processing_solution_fields`) is not under `src/`;
per the spec, `self.dx` is the integration measure of the domain and the
post-processed fields are the components of the returned solution. -/
structure SolveState where
  dxWeights : List ℚ
  p : List ℚ
  u : List (ℚ × ℚ)
  deriving DecidableEq, Repr

/-- Modelled from the spec: `fe.assemble(p*self.dx)` (the external framework's
assembly, out of scope per the spec) evaluates the integral `∫ p dx`; on the
discrete domain this is the weighted sum of the point values. -/
def assemble (w vals : List ℚ) : ℚ := (List.zipWith (· * ·) w vals).sum

/-- Measure of the domain, `|Ω| = ∫ 1 dx`. -/
def totalMeasure (w : List ℚ) : ℚ := w.sum

/-- Domain mean of a field: `(∫ p dx) / |Ω|`. -/
def meanValue (w vals : List ℚ) : ℚ := assemble w vals / totalMeasure w

/-- Embedding of the post-processing in `Simulation.solve` (the lines after
`self.solution = super().solve()`, whose solver output is the input state):
`p = self.post_processing_solution_fields["p"];
 mean_pressure = fe.assemble(p*self.dx);
 p = p.assign(p - mean_pressure)`.
`p.assign(p - c)` subtracts the constant `c` from `p` pointwise. -/
def solvePost (s : SolveState) : SolveState :=
  let mean_pressure := assemble s.dxWeights s.p
  { s with p := s.p.map (fun x => x - mean_pressure) }

/-- Discrete semantics of `fe.VectorSpaceBasis(constant=True)`: on `n` pressure
degrees of freedom it spans exactly the constant vectors. -/
def constantVectors (n : ℕ) : Set (List ℚ) :=
  { v | ∃ c : ℚ, v = List.replicate n c }

theorem assemble_map_sub (w : List ℚ) : ∀ (p : List ℚ), w.length = p.length →
    ∀ a : ℚ, assemble w (p.map (fun x => x - a)) = assemble w p - a * w.sum := by
  induction w with
  | nil => intro p _ a; simp [assemble]
  | cons x xs ih =>
    intro p hlen a
    cases p with
    | nil => simp at hlen
    | cons y ys =>
      have hys : xs.length = ys.length := by simpa using hlen
      simp only [List.map_cons, assemble, List.zipWith_cons_cons, List.sum_cons]
      have := ih ys hys a
      simp only [assemble] at this
      rw [this]
      ring

theorem solvePost_mean_zero_of_unit_measure (s : SolveState)
    (hlen : s.dxWeights.length = s.p.length)
    (hw : totalMeasure s.dxWeights = 1) :
    meanValue s.dxWeights (solvePost s).p = 0 := by
  simp only [meanValue, solvePost, totalMeasure] at *
  rw [assemble_map_sub s.dxWeights s.p hlen, hw]
  ring

/-- C1: for every simulation state providing solution fields `p`, `u`, test
functions `ψ_p`, `ψ_u` and Reynolds number `Re`, `momentum()` is the integral
over the domain of
`ψ_u·(grad(u)·u) − div(ψ_u)·p + (2/Re)·inner(sym(grad(ψ_u)), sym(grad(u)))`:
the viscous term carries the factor `2/Re` and uses the symmetric gradient on
both the test and trial velocity gradients. -/
theorem momentum_matches_spec (self : Simulation) :
    self.momentum = .integral (momentumIntegrandSpec self.solution_fields.p
      self.solution_fields.u self.test_functions.u self.reynolds_number) := rfl

/-- C4: `mass()` is the integral of `ψ_p·div(u)` over the domain, and it
depends neither on the pressure field `p` nor on the Reynolds number. -/
theorem mass_form_independent_of_p_and_Re (self : Simulation) :
    self.mass = .integral (.mul self.test_functions.p
      (.div self.solution_fields.u))
    ∧ ∀ (p' Re' : Expr),
        Simulation.mass
          { self with
            reynolds_number := Re'
            solution_fields := { self.solution_fields with p := p' } }
          = self.mass :=
  ⟨rfl, fun _ _ => rfl⟩

/-- C5: `weak_form_residual()` is the sum `mass() + momentum()`, i.e. the
combined form made of the mass integral and the momentum integral. -/
theorem weak_form_residual_is_mass_plus_momentum (self : Simulation) :
    self.weak_form_residual = .add self.mass self.momentum
    ∧ self.weak_form_residual = .add
        (.integral (.mul self.test_functions.p (.div self.solution_fields.u)))
        (.integral (momentumIntegrandSpec self.solution_fields.p
          self.solution_fields.u self.test_functions.u self.reynolds_number)) :=
  ⟨rfl, rfl⟩

/-- C6: `strong_residual(sim, (p, u))` returns the pair
`(div(u), grad(u)·u + grad(p) − (2/Re)·div(sym(grad(u))))`. -/
theorem strong_residual_matches_spec (sim : Simulation) (p u : Expr) :
    strong_residual sim (p, u) = strongResidualSpec p u sim.reynolds_number :=
  rfl

/-- C3: `nullspace()` hands the solver exactly the pair (constant basis on the
pressure component, full velocity subspace), built over the mixed solution
space; and the constant basis spans a one-dimensional space: the constant
vectors, each a scalar multiple of the all-ones vector. -/
theorem nullspace_constant_pressure_one_dimensional (self : Simulation) :
    self.nullspace =
      { space := self.solution_space
        bases := (.constants, .subspace self.solution_subspaces.u) }
    ∧ ∀ (n : ℕ) (v : List ℚ),
        v ∈ constantVectors n ↔
          ∃ c : ℚ, v = (List.replicate n (1 : ℚ)).map (fun x => c * x) := by
  refine ⟨rfl, fun n v => ?_⟩
  simp [constantVectors, List.map_replicate]

/-- C7: constructing a `Simulation` without a pre-supplied solution builds the
mixed element pairing a scalar Lagrange `"P"` pressure element of degree `d`
with a vector Lagrange `"P"` velocity element of degree `d + 1` on the mesh's
cell, and the fresh solution lives in the function space over that element. -/
theorem init_builds_taylor_hood_element (Re : ℚ) (d : ℕ) (mesh : Mesh) :
    Simulation.init Re { solution := none, mesh := some mesh } d =
      .ok { reynolds_number := .const Re
            super_kwargs :=
              { solution := some ⟨⟨mesh, Element.MixedElement
                  (.FiniteElement "P" mesh.ufl_cell d)
                  (.VectorElement "P" mesh.ufl_cell (d + 1))⟩⟩
                mesh := none }
            constructed_element := some (Element.MixedElement
              (.FiniteElement "P" mesh.ufl_cell d)
              (.VectorElement "P" mesh.ufl_cell (d + 1))) } := rfl

/-- C8: when `taylor_hood_pressure_element_degree` is omitted its default is 1,
so the constructed mixed element has pressure degree 1 and velocity degree 2. -/
theorem init_default_degree_one (Re : ℚ) (mesh : Mesh) :
    taylor_hood_pressure_element_degree_default = 1
    ∧ Simulation.init Re { solution := none, mesh := some mesh }
        taylor_hood_pressure_element_degree_default =
      .ok { reynolds_number := .const Re
            super_kwargs :=
              { solution := some ⟨⟨mesh, Element.MixedElement
                  (.FiniteElement "P" mesh.ufl_cell 1)
                  (.VectorElement "P" mesh.ufl_cell 2)⟩⟩
                mesh := none }
            constructed_element := some (Element.MixedElement
              (.FiniteElement "P" mesh.ufl_cell 1)
              (.VectorElement "P" mesh.ufl_cell 2)) } := ⟨rfl, rfl⟩

/-- C10: with `"solution"` in kwargs, `__init__` neither requires nor reads
`"mesh"` and constructs no element, passing kwargs through unchanged; without
`"solution"`, a missing `"mesh"` raises `KeyError` before the base class is
initialized, and otherwise `"mesh"` is removed from the kwargs passed to the
base class with a freshly built `"solution"` added in its place. -/
theorem init_kwargs_handling (Re : ℚ) (d : ℕ) :
    (∀ (sol : Function) (m : Option Mesh),
      Simulation.init Re { solution := some sol, mesh := m } d =
        .ok { reynolds_number := .const Re
              super_kwargs := { solution := some sol, mesh := m }
              constructed_element := none })
    ∧ Simulation.init Re { solution := none, mesh := none } d =
        .error (.keyError "mesh")
    ∧ ∀ mesh : Mesh, ∃ f : Function,
        Simulation.init Re { solution := none, mesh := some mesh } d =
          .ok { reynolds_number := .const Re
                super_kwargs := { solution := some f, mesh := none }
                constructed_element := some (Element.MixedElement
                  (.FiniteElement "P" mesh.ufl_cell d)
                  (.VectorElement "P" mesh.ufl_cell (d + 1))) } :=
  ⟨fun _ _ => rfl, rfl, fun mesh =>
    ⟨⟨⟨mesh, Element.MixedElement
        (.FiniteElement "P" mesh.ufl_cell d)
        (.VectorElement "P" mesh.ufl_cell (d + 1))⟩⟩, rfl⟩⟩

/-- C9: the post-processing step of `solve()` changes only the pressure field
of the post-processing solution; the velocity field and the domain measure are
left unchanged by the mean-pressure subtraction. -/
theorem solve_post_only_modifies_pressure (s : SolveState) :
    (solvePost s).u = s.u ∧ (solvePost s).dxWeights = s.dxWeights :=
  ⟨rfl, rfl⟩

/-- C2: the code subtracts `fe.assemble(p*self.dx)`, the raw integral `∫ p dx`,
not the domain mean `∫ p dx / |Ω|`.  On a domain of measure 2 with solver
output `p ≡ 1` the returned pressure is `≡ −1`, whose domain mean is `−1`, not
zero — contradicting the module docstring "The returned pressure solution will
always have zero mean". -/
theorem solve_mean_subtraction_fails_on_nonunit_domain :
    (solvePost ⟨[1, 1], [1, 1], [(0, 0), (0, 0)]⟩).p = [-1, -1]
    ∧ meanValue [1, 1] [-1, -1] = -1
    ∧ meanValue [1, 1] (solvePost ⟨[1, 1], [1, 1], [(0, 0), (0, 0)]⟩).p ≠ 0 := by
  refine ⟨?_, ?_, ?_⟩ <;>
    norm_num [solvePost, assemble, meanValue, totalMeasure,
      List.zipWith_cons_cons]

end NavierStokes
